import Mathlib

/-!
Verification of the `/optimize` service in `src/app.py`.

The program is a single-route HTTP server.  At module import it seeds the
process-wide numpy random generator (`np.random.seed(42)`), fixes the
dimension `d = 100` and the TT-rank `rank = 4`, and defines the objective

  `def f(x): return np.sum(np.abs(x * np.sin(x) + 0.1 * x), axis=1)`.

The POST handler reads `request.json` (which raises on a malformed or
missing JSON body), builds a fixed `TTOpt` configuration, runs the external
optimizer synchronously, and returns `jsonify` of a one-key object holding
the optimizer's textual report `tto.info()`.

External code (Flask's JSON parsing, numpy's `sin`, the `ttopt` library) is
embedded abstractly: `np.sin` is a function parameter of `f`, the parse of
the request body arrives as an `Except`, and the optimizer run is an oracle
parameter of the handler.  Arithmetic is carried out over `ℚ`.
-/

/-- JSON values, as produced by a successful `request.json` parse.  The
handler never inspects the parsed value, so only the shape of the type
matters. -/
inductive Json where
  | null
  | bool (b : Bool)
  | num (q : ℚ)
  | str (s : String)
  | arr (elems : List Json)
  | obj (fields : List (String × Json))

/-- Module-level constant `d = 100`, the number of function dimensions. -/
def d : ℕ := 100

/-- Module-level constant `rank = 4`, the maximum TT-rank passed to
`tto.optimize(rank)`. -/
def rank : ℕ := 4

/-- The objective `f(x) = np.sum(np.abs(x * np.sin(x) + 0.1 * x), axis=1)`.
A batch is a list of rows (shape `[samples, d]`); the reduction over
`axis=1` sums within each row, so the result has one scalar per row.
`np.sin` is an external numerical routine and is passed as the abstract
parameter `sin`. -/
def f (sin : ℚ → ℚ) (X : List (List ℚ)) : List ℚ :=
  X.map (fun x => (x.map (fun t => |t * sin t + 0.1 * t|)).sum)

/-- The batch produced by `f` has one entry per input row. -/
lemma f_length (sin : ℚ → ℚ) (X : List (List ℚ)) :
    (f sin X).length = X.length := List.length_map _ _

/-- Sums of mapped lists agree when the map agrees across a `Forall₂`
relation between the lists. -/
lemma sum_map_eq_of_forall₂ {α : Type} (g : α → ℚ) {l₁ l₂ : List α}
    (h : List.Forall₂ (fun a b => g a = g b) l₁ l₂) :
    (l₁.map g).sum = (l₂.map g).sum := by
  induction h with
  | nil => rfl
  | cons he _ ih => simp [he, ih]

/-- C2: the objective `f`, applied to a batch whose `i`-th row is the zero
vector of length 100, returns `0` at position `i` (each coordinate
contributes `|0 * sin 0 + 0.1 * 0| = 0`; the hypothesis `sin 0 = 0` records
that the external `np.sin` vanishes at zero). -/
theorem f_zero_row (sin : ℚ → ℚ) (hs : sin 0 = 0) (X : List (List ℚ))
    (i : ℕ) (hi : i < X.length)
    (hrow : X.get ⟨i, hi⟩ = List.replicate 100 0) :
    (f sin X).get ⟨i, by rw [f_length]; exact hi⟩ = 0 := by
  have hrow' : X[i] = List.replicate 100 0 := by
    simpa [List.get_eq_getElem] using hrow
  simp [f, List.getElem_map, hrow', hs, List.map_replicate, List.sum_replicate]

/-- C2 witness: a concrete batch holding only the zero vector of length 100
evaluates to `0` there. -/
theorem f_zero_row_witness :
    (f id [List.replicate 100 0]).get ⟨0, by simp [f]⟩ = 0 :=
  f_zero_row id rfl [List.replicate 100 0] 0 (by simp) rfl

/-- C8: for every input batch, `f` returns a batch with one entry per row,
and every entry is non-negative (each is a sum of absolute values). -/
theorem f_shape_nonneg (sin : ℚ → ℚ) (X : List (List ℚ)) :
    (f sin X).length = X.length ∧ ∀ y ∈ f sin X, 0 ≤ y := by
  refine ⟨List.length_map _ _, ?_⟩
  intro y hy
  simp only [f, List.mem_map] at hy
  obtain ⟨row, -, rfl⟩ := hy
  refine List.sum_nonneg ?_
  intro t ht
  simp only [List.mem_map] at ht
  obtain ⟨u, -, rfl⟩ := ht
  exact abs_nonneg _

/-- C8 witness: on the concrete batch `[[1, -2]]` the output has length one
and the concrete output value `49/10` is non-negative. -/
theorem f_shape_nonneg_witness :
    (f id [[1, -2]]).length = 1 ∧ (0 : ℚ) ≤ 49 / 10 :=
  ⟨(f_shape_nonneg id [[1, -2]]).1,
   (f_shape_nonneg id [[1, -2]]).2 (49 / 10) (by norm_num [f, abs_of_nonneg])⟩

/-- C9: the objective is invariant under permutations of the coordinates of
each input point: if every row of `Y` is a permutation of the corresponding
row of `X` (in particular, if the columns of the batch are permuted), the
output batch is unchanged, since each row is reduced by a sum. -/
theorem f_perm_invariant (sin : ℚ → ℚ) (X Y : List (List ℚ))
    (h : List.Forall₂ (fun r r₂ => r.Perm r₂) X Y) :
    f sin X = f sin Y := by
  induction h with
  | nil => rfl
  | cons hrow _ ih =>
    simp only [f, List.map_cons, List.cons.injEq] at ih ⊢
    exact ⟨((hrow.map _).sum_eq), ih⟩

/-- C9 witness: swapping the two coordinates of the single point `[1, 2]`
leaves the output unchanged. -/
theorem f_perm_invariant_witness :
    f id [[1, 2]] = f id [[2, 1]] :=
  f_perm_invariant id [[1, 2]] [[2, 1]]
    (List.Forall₂.cons (List.Perm.swap 2 1 []) List.Forall₂.nil)

/-- C6: the objective is invariant under any elementwise change of the
input (in particular sign changes) that preserves `|x * sin x + 0.1 * x|`
elementwise: if the two batches agree on that quantity entry by entry, the
outputs are equal. -/
theorem f_abs_invariant (sin : ℚ → ℚ) (X Y : List (List ℚ))
    (h : List.Forall₂
      (List.Forall₂ (fun a b => |a * sin a + 0.1 * a| = |b * sin b + 0.1 * b|))
      X Y) :
    f sin X = f sin Y := by
  induction h with
  | cons hrow _ ih =>
    simp only [f, List.map_cons, List.cons.injEq] at ih ⊢
    exact ⟨sum_map_eq_of_forall₂ _ hrow, ih⟩
  | nil => rfl

/-- C6 witness: with the sine oracle constantly `0`, the points `1` and
`-1` produce the same elementwise quantity `|0.1| = |-0.1|`, and the
outputs agree. -/
theorem f_abs_invariant_witness :
    f (fun _ => 0) [[1]] = f (fun _ => 0) [[-1]] :=
  f_abs_invariant (fun _ => 0) [[1]] [[-1]]
    (List.Forall₂.cons (List.Forall₂.cons (by norm_num) List.Forall₂.nil)
      List.Forall₂.nil)

/-- State of the process-wide numpy random generator, set once when the
module loads and threaded through every optimizer run. -/
abbrev RngState := ℕ

/-- `np.random.seed(42)`: the generator state fixed at process start. -/
def seedState : RngState := 42

/-- Configuration record passed to the external `TTOpt` constructor by the
handler.  The `f` field holds the objective (still abstract in its `np.sin`
oracle); `evals = 1.E+5` is the evaluation budget. -/
structure Config where
  f : (ℚ → ℚ) → List (List ℚ) → List ℚ
  d : ℕ
  a : ℚ
  b : ℚ
  p : ℕ
  q : ℕ
  evals : ℚ
  name : String
  x_opt_real : List ℚ
  y_opt_real : ℚ
  with_log : Bool

/-- `np.ones(n)`: the all-ones vector of length `n`. -/
def npOnes (n : ℕ) : List ℚ := List.replicate n 1

/-- The configuration the handler builds after reading the request body.
The parsed body `_data` is in scope (the source binds it and prints it) but
none of the fields depend on it. -/
def handlerConfig ( _data : Json) : Config :=
  { f := f,
    d := d,
    a := -10,
    b := 10,
    p := 2,
    q := 12,
    evals := 100000,
    name := "Alpine",
    x_opt_real := npOnes d,
    y_opt_real := 0,
    with_log := true }

/-- HTTP response: a status code and a JSON-object body with string values,
as produced by `jsonify` of a dictionary of strings. -/
structure Response where
  status : ℕ
  body : List (String × String)
deriving DecidableEq

/-- Unhandled exceptions escaping the handler: `badRequest` when
`request.json` raises on a malformed or missing JSON body, `optFail e` when
the external optimizer raises `e` during `tto.optimize` or `tto.info`. -/
inductive HandlerErr (ε : Type) where
  | badRequest
  | optFail (e : ε)
deriving DecidableEq

/-- The `/optimize` route handler.  `opt` abstracts the external library
run: constructing `TTOpt` from a configuration, calling
`tto.optimize(rank)` and reading `tto.info()`, it either raises or returns
the report string together with the advanced generator state.  `req` is
the outcome of `request.json`.  The handler performs no error handling of
its own: a failed parse or a failing optimizer run propagates as an
error, and on success the response is `jsonify` of the one-key object. -/
def optimize {ε : Type}
    (opt : Config → ℕ → RngState → Except ε (String × RngState))
    (req : Except Unit Json) (st : RngState) :
    Except (HandlerErr ε) (Response × RngState) :=
  match req with
  | .error _ => .error .badRequest
  | .ok data =>
    match opt (handlerConfig data) rank st with
    | .error e => .error (.optFail e)
    | .ok (result, st₂) =>
      .ok ({ status := 200, body := [("minimum_value", result)] }, st₂)

/-- C1: for every well-formed POST body (a successfully parsed JSON value)
and every run of the external optimizer that returns a report, the handler
returns status 200 with a JSON object holding exactly the one key
`minimum_value`, whose value is the optimizer's report; when the report is
a non-empty string (the external library's textual status line), so is the
value in the response. -/
theorem handler_response_shape {ε : Type}
    (opt : Config → ℕ → RngState → Except ε (String × RngState))
    (data : Json) (st st' : RngState) (report : String)
    (hopt : opt (handlerConfig data) rank st = .ok (report, st'))
    (hne : report ≠ "") :
    optimize opt (.ok data) st =
      .ok ({ status := 200, body := [("minimum_value", report)] }, st')
      ∧ report ≠ "" := by
  refine ⟨?_, hne⟩
  simp [optimize, hopt]

/-- C1 witness: a concrete optimizer oracle returning the report `"OK"`
yields the concrete 200 response with the single key. -/
theorem handler_response_shape_witness :
    optimize (ε := Unit) (fun _ _ _ => Except.ok ("OK", 0))
        (Except.ok Json.null) seedState =
      Except.ok ({ status := 200, body := [("minimum_value", "OK")] }, 0)
      ∧ ("OK" : String) ≠ "" :=
  handler_response_shape (ε := Unit) (fun _ _ _ => Except.ok ("OK", 0))
    Json.null seedState 0 "OK" rfl (by decide)

/-- C3: determinism of a run from the process-start seed: for any optimizer
oracle (the external run is a function of the configuration, the rank and
the generator state) and any two successfully parsed request bodies, two
handler runs started from the seeded generator state produce byte-identical
results — in particular byte-identical report strings. -/
theorem handler_deterministic {ε : Type}
    (opt : Config → ℕ → RngState → Except ε (String × RngState))
    (d₁ d₂ : Json) :
    optimize opt (.ok d₁) seedState = optimize opt (.ok d₂) seedState := rfl

/-- C4: the request body does not parameterize the optimization: any two
successfully parsed bodies lead the handler to construct identical
configurations (same objective `f`, same `d`, bounds, grid factors and
evaluation budget; the rank passed alongside is the module constant). -/
theorem handlerConfig_const (d₁ d₂ : Json) :
    handlerConfig d₁ = handlerConfig d₂ := rfl

/-- C5: on every request the handler invokes the optimizer with the fixed
parameters — evaluation budget `1.E+5`, `d = 100`, bounds `[-10, 10]`,
`2 ^ 12` grid points per dimension, TT-rank `4` — and with nothing else:
the handler's result depends on the optimizer oracle only through its value
at this one configuration, rank and state (the run is a single synchronous
call). -/
theorem handler_fixed_budget (data : Json) :
    (handlerConfig data).evals = 100000 ∧
    (handlerConfig data).d = 100 ∧
    (handlerConfig data).a = -10 ∧
    (handlerConfig data).b = 10 ∧
    (handlerConfig data).p ^ (handlerConfig data).q = 2 ^ 12 ∧
    rank = 4 ∧
    ∀ {ε : Type}
      (opt opt' : Config → ℕ → RngState → Except ε (String × RngState))
      (st : RngState),
      opt (handlerConfig data) rank st = opt' (handlerConfig data) rank st →
      optimize opt (.ok data) st = optimize opt' (.ok data) st := by
  refine ⟨rfl, rfl, rfl, rfl, rfl, rfl, ?_⟩
  intro ε opt opt' st h
  simp [optimize, h]

/-- C5 witness: the budget field is `100000` concretely, and two oracles
agreeing at the fixed configuration give the same handler result. -/
theorem handler_fixed_budget_witness :
    (handlerConfig Json.null).evals = 100000 ∧
    optimize (ε := Unit) (fun _ _ _ => Except.ok ("OK", 0))
        (Except.ok Json.null) seedState =
      optimize (ε := Unit) (fun _ _ _ => Except.ok ("OK", 0))
        (Except.ok Json.null) seedState :=
  ⟨(handler_fixed_budget Json.null).1,
   (handler_fixed_budget Json.null).2.2.2.2.2.2
     (fun _ _ _ => Except.ok ("OK", 0)) (fun _ _ _ => Except.ok ("OK", 0))
     seedState rfl⟩

/-- C7: the handler performs no error handling: a failed `request.json`
parse escapes as an error, a failing optimizer run escapes as an error
carrying the library's exception, and the only successful outcomes are full
responses built from a successful optimizer run — never a caught exception,
a retry, or a partial result. -/
theorem handler_no_error_handling {ε : Type}
    (opt : Config → ℕ → RngState → Except ε (String × RngState))
    (st : RngState) :
    optimize opt (.error ()) st = .error .badRequest
    ∧ (∀ (data : Json) (e : ε),
        opt (handlerConfig data) rank st = .error e →
        optimize opt (.ok data) st = .error (.optFail e))
    ∧ (∀ (req : Except Unit Json) (out : Response × RngState),
        optimize opt req st = .ok out →
        ∃ (data : Json) (report : String) (st₂ : RngState),
          req = .ok data
          ∧ opt (handlerConfig data) rank st = .ok (report, st₂)
          ∧ out = ({ status := 200,
                     body := [("minimum_value", report)] }, st₂)) := by
  refine ⟨rfl, ?_, ?_⟩
  · intro data e he
    simp [optimize, he]
  · intro req out hout
    match req with
    | .error u => simp [optimize] at hout
    | .ok data =>
      cases hcall : opt (handlerConfig data) rank st with
      | error e => simp [optimize, hcall] at hout
      | ok pr =>
        obtain ⟨report, st₂⟩ := pr
        refine ⟨data, report, st₂, rfl, hcall, ?_⟩
        simp [optimize, hcall] at hout
        exact hout.symm

/-- C7 witness: an always-raising optimizer oracle makes the handler
propagate the exception unchanged. -/
theorem handler_no_error_handling_witness :
    optimize (ε := Unit) (fun _ _ _ => Except.error ())
        (Except.ok Json.null) seedState =
      Except.error (HandlerErr.optFail ()) :=
  (handler_no_error_handling (ε := Unit) (fun _ _ _ => Except.error ())
    seedState).2.1 Json.null () rfl

/-- C10: when the request body fails to parse (malformed JSON, or a missing
body under a JSON content type), the handler's `request.json` raises before
the configuration is built: the run errors out with no `minimum_value`
response, and the result does not depend on the optimizer oracle at all —
no optimization run occurs. -/
theorem handler_malformed_body {ε : Type}
    (opt opt' : Config → ℕ → RngState → Except ε (String × RngState))
    (st : RngState) :
    optimize opt (.error ()) st = .error .badRequest
    ∧ optimize opt (.error ()) st = optimize opt' (.error ()) st :=
  ⟨rfl, rfl⟩
